import Mathlib

/-!
Shallow embedding of the Java-upgrade extension (vscode-extension-sample).

The embedding translates the TypeScript services that the verified claims
are about:

* `UpgradePlanGenerator` (src/services/upgradePlanGenerator.ts):
  `determineTargetJavaVersion`, `determineSpringBootVersion`,
  `determineOpenRewriteRecipes`, `determineDependencyUpdates`, `generatePlan`.
* `DependencyResolver` (unnamed service file, part_003):
  `resolveLatestVersion`, `findBestVersion`, `checkConflicts`.
* `OpenRewriteService` (unnamed service file, part_002): `applyRecipes`.
* `ProjectAnalyzer` (unnamed service file, part_008):
  `detectBuildSystem`, `analyzeProject`.
* `WorkspaceStateManager` (unnamed service file, part_006):
  `ignoreWarning`, `isWarningIgnored`, `recordUpgradeStart`.
* The `java.upgrade.start` command handler (src/extension.ts).

Modelling conventions: JavaScript numbers restricted to the integer results
of `parseInt` become `Option Int` (`none` is `NaN`); a thrown exception
becomes `Except String` carrying the error message; `null`/`undefined`
become `Option`; JavaScript truthiness of a string is modelled explicitly
(the empty string is falsy); network and subprocess outcomes are passed in
as explicit `Except` parameters since they are the only external inputs.
-/

namespace JavaUpgrade

/-! ### JavaScript primitives used by the sources -/

/-- Numeric value of a list of decimal digit characters. -/
def digitsToNat (cs : List Char) : Nat :=
  cs.foldl (fun n c => n * 10 + (c.toNat - 48)) 0

/-- Numeric value of a list of hexadecimal digit characters. -/
def hexDigitsToNat (cs : List Char) : Nat :=
  cs.foldl (fun n c =>
    n * 16 +
      (if c.isDigit then c.toNat - 48
       else if ('a' ≤ c ∧ c ≤ 'f') then c.toNat - 87
       else c.toNat - 55)) 0

/-- Is the character a hexadecimal digit. -/
def isHexDigit (c : Char) : Bool :=
  c.isDigit || ('a' ≤ c && c ≤ 'f') || ('A' ≤ c && c ≤ 'F')

/-- JavaScript `parseInt(s)` with no radix argument: skip leading
whitespace, read an optional sign, then either a `0x`/`0X` hexadecimal
literal or a run of decimal digits; trailing garbage is ignored; if no
digit is read the result is `NaN`, modelled as `none`. -/
def jsParseInt (s : String) : Option Int :=
  let cs := s.data.dropWhile Char.isWhitespace
  let signAndRest : Int × List Char :=
    match cs with
    | '-' :: rest => (-1, rest)
    | '+' :: rest => (1, rest)
    | _ => (1, cs)
  let sign := signAndRest.1
  match signAndRest.2 with
  | '0' :: c :: rest =>
    if c = 'x' ∨ c = 'X' then
      let hx := rest.takeWhile isHexDigit
      if hx.isEmpty then none else some (sign * (hexDigitsToNat hx : Int))
    else
      let ds := ('0' :: c :: rest).takeWhile Char.isDigit
      some (sign * (digitsToNat ds : Int))
  | other =>
    let ds := other.takeWhile Char.isDigit
    if ds.isEmpty then none else some (sign * (digitsToNat ds : Int))

/-- JavaScript `s.split(sep)` for a single-character separator, on the
underlying character list: splitting the empty string gives the
one-element list holding the empty segment, and separators at the ends
produce empty segments, exactly as in JavaScript. -/
def splitOnChar (sep : Char) : List Char → List (List Char)
  | [] => [[]]
  | c :: rest =>
    if c = sep then [] :: splitOnChar sep rest
    else
      match splitOnChar sep rest with
      | seg :: segs => (c :: seg) :: segs
      | [] => [[c]]

/-- JavaScript truthiness of an optional string: `undefined`/`null` and
the empty string are falsy, every other string is truthy. -/
def jsTruthyStr (v : Option String) : Bool :=
  match v with
  | none => false
  | some s => s ≠ ""

/-! ### Data model (interfaces of upgradePlanGenerator.ts and part_008) -/

/-- Build system enum from the `ProjectInfo` interface. -/
inductive BuildSystem where
  | maven
  | gradle
deriving DecidableEq, Repr

/-- `Dependency` interface: groupId, artifactId, version. -/
structure Dependency where
  groupId : String
  artifactId : String
  version : String
deriving DecidableEq, Repr

/-- `ProjectInfo` interface: build system, current Java version, declared
dependencies, optional Spring Boot version. -/
structure ProjectInfo where
  buildSystem : BuildSystem
  currentJavaVersion : String
  dependencies : List Dependency
  springBootVersion : Option String
deriving DecidableEq, Repr

/-- `DependencyUpdate` interface of the plan generator. -/
structure DependencyUpdate where
  groupId : String
  artifactId : String
  fromVersion : String
  toVersion : String
deriving DecidableEq, Repr

/-- `UpgradePlan` interface: target Java version, optional target Spring
Boot version, ordered recipe identifiers, dependency updates. -/
structure UpgradePlan where
  javaVersion : String
  springBootVersion : Option String
  recipes : List String
  dependencyUpdates : List DependencyUpdate
deriving DecidableEq, Repr

/-! ### UpgradePlanGenerator (src/services/upgradePlanGenerator.ts) -/

/-- First dot-separated segment of a version string, as computed by
`currentVersion.split(".")[0]` (the split of the empty string is the
one-element list holding the empty string). -/
def majorSegment (s : String) : String :=
  String.mk ((splitOnChar '.' s.data).headD [])

/-- `determineTargetJavaVersion`: parse the major version with `parseInt`
and map it to the next LTS rung; when the parse yields `NaN` every
comparison is false and the input is returned unchanged. -/
def determineTargetJavaVersion (currentVersion : String) : String :=
  match jsParseInt (majorSegment currentVersion) with
  | none => currentVersion
  | some majorVersion =>
    if majorVersion < 11 then "11"
    else if majorVersion < 17 then "17"
    else if majorVersion < 21 then "21"
    else currentVersion

/-- Fixed Spring Boot version lookup table of `determineSpringBootVersion`. -/
def springBootVersionMap : List (String × String) :=
  [("1.5", "2.7.18"), ("2.0", "2.7.18"), ("2.1", "2.7.18"),
   ("2.2", "2.7.18"), ("2.3", "2.7.18"), ("2.4", "2.7.18"),
   ("2.5", "2.7.18"), ("2.6", "2.7.18"), ("2.7", "3.2.0")]

/-- `determineSpringBootVersion`: falsy current version gives `undefined`;
otherwise look up the major.minor key, falling back to `3.2.0`. -/
def determineSpringBootVersion (currentVersion : Option String) : Option String :=
  if jsTruthyStr currentVersion = false then none
  else
    let v := currentVersion.getD ""
    let majorMinor :=
      match (splitOnChar '.' v.data).take 2 with
      | [a, b] => String.mk a ++ "." ++ String.mk b
      | [a] => String.mk a
      | _ => ""
    some ((springBootVersionMap.lookup majorMinor).getD "3.2.0")

/-- `determineOpenRewriteRecipes`. The first push interpolates
`this.determineTargetJavaVersion(...)` into a template literal WITHOUT
awaiting it, although the method is `async`; the template literal
therefore stringifies the pending promise, producing the fixed text
`[object Promise]` after `UpgradeToJava` no matter what the project's
current Java version is. -/
def determineOpenRewriteRecipes (projectInfo : ProjectInfo) : List String :=
  let base := ["org.openrewrite.java.migrate.UpgradeToJava[object Promise]"]
  let withSpring :=
    if jsTruthyStr projectInfo.springBootVersion then
      base ++ ["org.openrewrite.java.spring.boot3.UpgradeSpringBoot_3_2"]
    else base
  withSpring ++
    ["org.openrewrite.java.migrate.JavaModernizer",
     "org.openrewrite.java.migrate.UpgradeJavaVersion"]

/-- `findLatestVersion` of the plan generator: a stub that always
returns `null`. -/
def findLatestVersion (_dependency : Dependency) : Option String :=
  none

/-- `determineDependencyUpdates`: for each dependency, include an update
exactly when the resolved latest version is truthy and differs from the
current one (strict string inequality). -/
def determineDependencyUpdates : List Dependency → List DependencyUpdate
  | [] => []
  | dep :: rest =>
    match findLatestVersion dep with
    | some latestVersion =>
      if latestVersion ≠ "" ∧ latestVersion ≠ dep.version then
        { groupId := dep.groupId, artifactId := dep.artifactId,
          fromVersion := dep.version, toVersion := latestVersion }
          :: determineDependencyUpdates rest
      else determineDependencyUpdates rest
    | none => determineDependencyUpdates rest

/-- `generatePlan`: assemble the four plan fields from ProjectInfo. -/
def generatePlan (projectInfo : ProjectInfo) : UpgradePlan :=
  { javaVersion := determineTargetJavaVersion projectInfo.currentJavaVersion
    springBootVersion := determineSpringBootVersion projectInfo.springBootVersion
    recipes := determineOpenRewriteRecipes projectInfo
    dependencyUpdates := determineDependencyUpdates projectInfo.dependencies }

/-! ### DependencyResolver (unnamed service file, part_003) -/

/-- `DependencyCoordinate` interface of the dependency resolver. -/
structure DependencyCoordinate where
  groupId : String
  artifactId : String
  version : String
deriving DecidableEq, Repr

/-- `DependencyConflict` interface: coordinate key plus all distinct
versions seen for it. -/
structure DependencyConflict where
  groupId : String
  artifactId : String
  versions : List String
deriving DecidableEq, Repr

/-- `findBestVersion` of the resolver: the placeholder
`return versions[0] || null` — the first element when it exists and is
truthy, otherwise `null` (so an empty first element also yields `null`). -/
def findBestVersion (versions : List String) : Option String :=
  match versions.head? with
  | some v => if v = "" then none else some v
  | none => none

/-- `resolveLatestVersion`: the outcome of `fetchAvailableVersions`
(an HTTP query against the package-registry search endpoint) is passed in
as `fetched`. On success the result is `findBestVersion`; the `catch`
block logs the failure and returns `null`, so no error escapes the
method. The outer `Except` is the channel a re-thrown error would use. -/
def resolveLatestVersion (_dependency : DependencyCoordinate)
    (fetched : Except String (List String)) : Except String (Option String) :=
  match fetched with
  | Except.ok versions => Except.ok (findBestVersion versions)
  | Except.error _ => Except.ok none

/-- One step of building `checkConflicts`' version map: insert the version
into the set stored under `groupId:artifactId`, preserving the insertion
order of keys and of versions (JavaScript `Map`/`Set` iteration order). -/
def addVersion (m : List (String × List String)) (key v : String) :
    List (String × List String) :=
  if (m.lookup key).isSome then
    m.map (fun kv =>
      if kv.1 = key then
        (kv.1, if kv.2.contains v then kv.2 else kv.2 ++ [v])
      else kv)
  else m ++ [(key, [v])]

/-- The version map built by the first loop of `checkConflicts`. -/
def buildVersionMap (dependencies : List DependencyCoordinate) :
    List (String × List String) :=
  dependencies.foldl
    (fun m dep => addVersion m (dep.groupId ++ ":" ++ dep.artifactId) dep.version)
    []

/-- `checkConflicts` as written in the source. After building the version
map, the second loop is `for (const [key, versions] of versionMap.entries)`
— the method reference itself, with no call parentheses. A function object
is not iterable, so the loop header throws a TypeError before any
iteration and the conflict-collecting block is never reached, for every
input list. -/
def checkConflicts (dependencies : List DependencyCoordinate) :
    Except String (List DependencyConflict) :=
  let _versionMap := buildVersionMap dependencies
  Except.error "TypeError: versionMap.entries is not iterable"

/-- Modelled from the spec: conflict detection groups by groupId:artifactId
key and reports any key mapping to more than one distinct version string.
This is `checkConflicts` with the loop written `versionMap.entries()` as
the surrounding code and the doc comment intend. -/
def checkConflictsIntended (dependencies : List DependencyCoordinate) :
    List DependencyConflict :=
  (buildVersionMap dependencies).filterMap (fun kv =>
    if 1 < kv.2.length then
      let parts := (splitOnChar ':' kv.1.data).map String.mk
      some { groupId := parts.headD ""
             artifactId := (parts.drop 1).headD ""
             versions := kv.2 }
    else none)

/-! ### OpenRewriteService (unnamed service file, part_002) -/

/-- `applyRecipes`: apply recipes in order; `executeRecipe` shells out to
the build tool, its outcome per recipe is passed in as `exec`. A failure
is caught and re-thrown as a descriptive error carrying the recipe name
and the original message; execution stops at the first failure. -/
def applyRecipes (exec : String → Except String Unit) :
    List String → Except String Unit
  | [] => Except.ok ()
  | recipe :: rest =>
    match exec recipe with
    | Except.ok _ => applyRecipes exec rest
    | Except.error m =>
      Except.error ("Failed to apply recipe " ++ recipe ++ ": " ++ m)

/-! ### ProjectAnalyzer (unnamed service file, part_008) -/

/-- Which build manifests exist in the workspace root, the inputs of the
three `fs.existsSync` calls of `detectBuildSystem`. -/
structure WorkspaceFiles where
  pomExists : Bool
  gradleExists : Bool
  gradleKtsExists : Bool
deriving DecidableEq, Repr

/-- `detectBuildSystem`: pom.xml first, then build.gradle or
build.gradle.kts; otherwise throw. -/
def detectBuildSystem (fs : WorkspaceFiles) : Except String BuildSystem :=
  if fs.pomExists then Except.ok BuildSystem.maven
  else if fs.gradleExists || fs.gradleKtsExists then Except.ok BuildSystem.gradle
  else Except.error "No supported build system detected"

/-- `detectJavaVersion`: a stub returning a constant. -/
def detectJavaVersion : String := "detected-version"

/-- `detectSpringBootVersion`: a stub returning `undefined`. -/
def detectSpringBootVersion : Option String := none

/-- `analyzeMavenDependencies`: a stub returning the empty list. -/
def analyzeMavenDependencies : List Dependency := []

/-- `analyzeGradleDependencies`: a stub returning the empty list. -/
def analyzeGradleDependencies : List Dependency := []

/-- `analyzeDependencies`: re-detect the build system and dispatch. -/
def analyzeDependencies (fs : WorkspaceFiles) : Except String (List Dependency) := do
  let buildSystem ← detectBuildSystem fs
  match buildSystem with
  | BuildSystem.maven => Except.ok analyzeMavenDependencies
  | BuildSystem.gradle => Except.ok analyzeGradleDependencies

/-- `analyzeProject`: build the ProjectInfo field by field, in source
order; a thrown detection error escapes and no ProjectInfo is produced. -/
def analyzeProject (fs : WorkspaceFiles) : Except String ProjectInfo := do
  let buildSystem ← detectBuildSystem fs
  let deps ← analyzeDependencies fs
  Except.ok
    { buildSystem := buildSystem
      currentJavaVersion := detectJavaVersion
      dependencies := deps
      springBootVersion := detectSpringBootVersion }

/-! ### WorkspaceStateManager (unnamed service file, part_006) -/

/-- `UpgradeStatus` union type. -/
inductive UpgradeStatus where
  | inProgress
  | completed
  | failed
  | cancelled
deriving DecidableEq, Repr

/-- `UpgradeHistoryEntry` interface (UpgradeInfo plus timestamp/status). -/
structure UpgradeHistoryEntry where
  timestamp : String
  fromVersion : String
  toVersion : String
  buildTool : String
  projectPath : String
  status : UpgradeStatus
  completedAt : Option String
deriving DecidableEq, Repr

/-- The durable key-value store (`context.globalState`) as read through
the manager's typed getters: a missing key is already replaced by each
getter's default (empty list / `undefined`). -/
structure GlobalState where
  lastUpgradeTimestamp : Option String
  upgradeHistory : List UpgradeHistoryEntry
  ignoredWarnings : List String
deriving DecidableEq, Repr

/-- `getIgnoredWarnings`: read the list, defaulting to empty. -/
def getIgnoredWarnings (st : GlobalState) : List String :=
  st.ignoredWarnings

/-- `getUpgradeHistory`: read the list, defaulting to empty. -/
def getUpgradeHistory (st : GlobalState) : List UpgradeHistoryEntry :=
  st.upgradeHistory

/-- `ignoreWarning`: append the id to the persisted ignored list unless it
is already present (the `includes` guard). -/
def ignoreWarning (st : GlobalState) (warningId : String) : GlobalState :=
  let ignored := getIgnoredWarnings st
  if ignored.contains warningId then st
  else { st with ignoredWarnings := ignored ++ [warningId] }

/-- `isWarningIgnored`: membership in the persisted ignored list. -/
def isWarningIgnored (st : GlobalState) (warningId : String) : Bool :=
  (getIgnoredWarnings st).contains warningId

/-- `recordUpgradeStart`: stamp the last-upgrade key and append an
in-progress entry to the history. -/
def recordUpgradeStart (st : GlobalState) (timestamp : String)
    (fromVersion toVersion buildTool projectPath : String) : GlobalState :=
  { st with
      lastUpgradeTimestamp := some timestamp
      upgradeHistory := getUpgradeHistory st ++
        [{ timestamp := timestamp, fromVersion := fromVersion,
           toVersion := toVersion, buildTool := buildTool,
           projectPath := projectPath, status := UpgradeStatus.inProgress,
           completedAt := none }] }

/-! ### Orchestrator: the java.upgrade.start handler (src/extension.ts) -/

/-- Externally observable calls made by one run of the handler. The
webview shown by `showUpgradePlan` is not an effect of interest here. -/
inductive Effect where
  | applyRecipesCall (recipes : List String)
  | updateDependenciesCall (updates : List DependencyUpdate)
  | notifyError (message : String)
  | showSummary
deriving DecidableEq, Repr

/-- External inputs of one run of the `java.upgrade.start` handler: the
filesystem state seen by the analyzer, the answer the user gives in the
plan webview, and the outcomes of the external calls of
`executeUpgrade` (recipe subprocesses, dependency updates, validation). -/
structure OrchestratorEnv where
  files : WorkspaceFiles
  userApproved : Bool
  recipeExec : String → Except String Unit
  depUpdateOutcome : Except String Unit
  validationOutcome : Except String Unit

/-- `executeUpgrade`: apply recipes, then update dependencies, then the
build-fix/test/CVE steps (stubs plus the validator, folded into
`validationOutcome`); strictly in sequence, stopping at the first thrown
error, which escapes to the command handler. -/
def executeUpgrade (env : OrchestratorEnv) (plan : UpgradePlan) :
    List Effect × Except String Unit :=
  let step1 := [Effect.applyRecipesCall plan.recipes]
  match applyRecipes env.recipeExec plan.recipes with
  | Except.error m => (step1, Except.error m)
  | Except.ok _ =>
    let step2 := step1 ++ [Effect.updateDependenciesCall plan.dependencyUpdates]
    match env.depUpdateOutcome with
    | Except.error m => (step2, Except.error m)
    | Except.ok _ => (step2, env.validationOutcome)

/-- The `java.upgrade.start` command handler: analyze, plan, ask the user,
and only on approval run `executeUpgrade` and `validateResults`; any
thrown error is caught once at the top and surfaced as an error
notification. The handler never touches the workspace state manager, so
the persisted `GlobalState` flows through unchanged in every branch. -/
def startUpgradeCommand (env : OrchestratorEnv) (st : GlobalState) :
    GlobalState × List Effect :=
  match analyzeProject env.files with
  | Except.error e => (st, [Effect.notifyError ("Upgrade failed: " ++ e)])
  | Except.ok projectInfo =>
    let plan := generatePlan projectInfo
    if env.userApproved = false then (st, [])
    else
      match executeUpgrade env plan with
      | (effects, Except.error m) =>
        (st, effects ++ [Effect.notifyError ("Upgrade failed: " ++ m)])
      | (effects, Except.ok _) =>
        (st, effects ++ [Effect.showSummary])

/-! ### Helper lemmas -/

/-- The plan generator never emits a dependency update, because its
`findLatestVersion` stub always returns `null` and the loop only pushes
an update for a truthy resolved version. -/
theorem determineDependencyUpdates_eq_nil (deps : List Dependency) :
    determineDependencyUpdates deps = [] := by
  induction deps with
  | nil => rfl
  | cons d rest ih => simpa [determineDependencyUpdates, findLatestVersion] using ih

/-! ### Claims -/

/-- C1: for every current-Java-version string whose leading numeric major
version parses (to `m`), `determineTargetJavaVersion` returns `11` when
`m` is below 11, `17` when `m` is in `[11, 17)`, `21` when `m` is in
`[17, 21)`, and the input unchanged when `m` is at least 21. The Lean
function is total by construction, matching the no-error-path part of the
claim. -/
theorem determineTargetJavaVersion_lts_policy (s : String) (m : Int)
    (h : jsParseInt (majorSegment s) = some m) :
    (m < 11 → determineTargetJavaVersion s = "11") ∧
    (11 ≤ m → m < 17 → determineTargetJavaVersion s = "17") ∧
    (17 ≤ m → m < 21 → determineTargetJavaVersion s = "21") ∧
    (21 ≤ m → determineTargetJavaVersion s = s) := by
  have key : determineTargetJavaVersion s =
      if m < 11 then "11" else if m < 17 then "17" else if m < 21 then "21" else s := by
    unfold determineTargetJavaVersion
    rw [h]
  refine ⟨fun h1 => ?_, fun h1 h2 => ?_, fun h1 h2 => ?_, fun h1 => ?_⟩ <;>
    rw [key] <;> split_ifs <;> first | rfl | omega

/-- Witness for C1 at the four rungs 8, 11, 17.0.2 and 25. -/
theorem determineTargetJavaVersion_lts_policy_witness :
    determineTargetJavaVersion "8" = "11" ∧ determineTargetJavaVersion "11" = "17" ∧
    determineTargetJavaVersion "17.0.2" = "21" ∧ determineTargetJavaVersion "25" = "25" :=
  ⟨(determineTargetJavaVersion_lts_policy "8" 8 (by decide)).1 (by decide),
   (determineTargetJavaVersion_lts_policy "11" 11 (by decide)).2.1 (by decide) (by decide),
   (determineTargetJavaVersion_lts_policy "17.0.2" 17 (by decide)).2.2.1 (by decide)
     (by decide),
   (determineTargetJavaVersion_lts_policy "25" 25 (by decide)).2.2.2 (by decide)⟩

/-- C2: on a dependency list with two entries sharing groupId and
artifactId but with different versions, `checkConflicts` as written does
NOT return one conflict entry: its second loop iterates the
`versionMap.entries` method reference (missing call parentheses), which
is not iterable, so the call throws a TypeError. The variant with the
intended `entries()` call returns exactly one conflict listing both
versions, which is what the claim (and the surrounding code) describe. -/
theorem checkConflicts_throws_on_conflicting_pair :
    checkConflicts [⟨"g", "a", "1.0"⟩, ⟨"g", "a", "2.0"⟩] =
      Except.error "TypeError: versionMap.entries is not iterable" ∧
    checkConflictsIntended [⟨"g", "a", "1.0"⟩, ⟨"g", "a", "2.0"⟩] =
      [{ groupId := "g", artifactId := "a", versions := ["1.0", "2.0"] }] :=
  ⟨rfl, by decide⟩

/-- C3: for every ProjectInfo, the dependencyUpdates list of the plan
returned by `generatePlan` never contains two entries with the same
(groupId, artifactId) pair. It holds because the current
`findLatestVersion` stub makes the list empty for every input. -/
theorem generatePlan_dependencyUpdates_key_distinct (projectInfo : ProjectInfo) :
    List.Pairwise (fun u v : DependencyUpdate =>
      ¬(u.groupId = v.groupId ∧ u.artifactId = v.artifactId))
      (generatePlan projectInfo).dependencyUpdates := by
  simp [generatePlan, determineDependencyUpdates_eq_nil]

/-- C4 counterexample: `resolveLatestVersion` does not re-throw a
descriptive error on an internal failure — its catch block logs and
returns `null`, so the result is `ok none` and in particular is not an
error value, refuting the universally quantified propagation claim. -/
theorem resolveLatestVersion_swallows_failure_cex :
    resolveLatestVersion ⟨"g", "a", "1.0"⟩ (Except.error "network down") = Except.ok none ∧
    resolveLatestVersion ⟨"g", "a", "1.0"⟩ (Except.error "network down") ≠
      Except.error "Failed to resolve latest version for g:a: network down" :=
  ⟨rfl, fun h => Except.noConfusion h⟩

/-- C4 amended: the transformation runner `applyRecipes` catches a recipe
failure and re-throws a descriptive error carrying the recipe name and
the original message, but the dependency resolver `resolveLatestVersion`
catches internal failures and returns `null` (a fallback) instead of
re-throwing. -/
theorem error_propagation_amended
    (exec : String → Except String Unit) (recipe : String) (rest : List String)
    (m : String) (dep : DependencyCoordinate)
    (hfail : exec recipe = Except.error m) :
    applyRecipes exec (recipe :: rest) =
      Except.error ("Failed to apply recipe " ++ recipe ++ ": " ++ m) ∧
    resolveLatestVersion dep (Except.error m) = Except.ok none := by
  constructor
  · unfold applyRecipes
    rw [hfail]
  · rfl

/-- Witness for the amended C4, with a recipe whose execution fails with
message boom. -/
theorem error_propagation_amended_witness :
    applyRecipes (fun _ => Except.error "boom") ["r1"] =
      Except.error ("Failed to apply recipe " ++ "r1" ++ ": " ++ "boom") ∧
    resolveLatestVersion ⟨"g", "a", "1.0"⟩ (Except.error "boom") = Except.ok none :=
  error_propagation_amended (fun _ => Except.error "boom") "r1" [] "boom"
    ⟨"g", "a", "1.0"⟩ rfl

/-- C5: when no Maven or Gradle manifest exists, `analyzeProject` fails
with the build-system-not-found error and produces no (partial)
ProjectInfo — the `Except` error carries no payload besides the message;
and whenever pom.xml exists the project is reported as maven regardless
of the Gradle manifests, since the Maven check comes first. -/
theorem analyzeProject_detection_policy (fs : WorkspaceFiles) :
    (fs.pomExists = false → fs.gradleExists = false → fs.gradleKtsExists = false →
      analyzeProject fs = Except.error "No supported build system detected") ∧
    (fs.pomExists = true →
      analyzeProject fs = Except.ok ⟨BuildSystem.maven, "detected-version", [], none⟩) := by
  obtain ⟨p, g, k⟩ := fs
  constructor
  · rintro rfl rfl rfl
    rfl
  · rintro rfl
    rfl

/-- Witness for C5: an empty workspace fails; a workspace holding both
pom.xml and build.gradle is reported as maven. -/
theorem analyzeProject_detection_policy_witness :
    analyzeProject ⟨false, false, false⟩ =
      Except.error "No supported build system detected" ∧
    analyzeProject ⟨true, true, false⟩ =
      Except.ok ⟨BuildSystem.maven, "detected-version", [], none⟩ :=
  ⟨(analyzeProject_detection_policy ⟨false, false, false⟩).1 rfl rfl rfl,
   (analyzeProject_detection_policy ⟨true, true, false⟩).2 rfl⟩

/-- C6 at the scenario input {maven, Java 8, no dependencies, no Spring
Boot}: the plan has target Java version 11, empty dependencyUpdates, the
two fixed modernization recipes, no framework recipe — but the
Java-version-upgrade recipe is the malformed
`UpgradeToJava[object Promise]`, because the async
`determineTargetJavaVersion` is interpolated without await, not the
`UpgradeToJava11` identifier the claim and the surrounding code intend. -/
theorem generatePlan_scenario_recipe_bug :
    generatePlan ⟨BuildSystem.maven, "8", [], none⟩ =
      ⟨"11", none,
       ["org.openrewrite.java.migrate.UpgradeToJava[object Promise]",
        "org.openrewrite.java.migrate.JavaModernizer",
        "org.openrewrite.java.migrate.UpgradeJavaVersion"], []⟩ := by
  decide

/-- C7 counterexample: when the registry returns a list whose first
element is the empty string, `resolveLatestVersion` returns `none`
rather than that first element, because `findBestVersion` is
`versions[0] || null` and the empty string is falsy. -/
theorem resolveLatestVersion_falsy_first_cex :
    resolveLatestVersion ⟨"g", "a", "1.0"⟩ (Except.ok [""]) = Except.ok none ∧
    resolveLatestVersion ⟨"g", "a", "1.0"⟩ (Except.ok [""]) ≠
      Except.ok (List.head? [""]) :=
  ⟨rfl, fun h => Option.noConfusion (Except.ok.inj h)⟩

/-- C7 amended: `resolveLatestVersion` returns the first retrieved
version when that element is a non-empty string, returns none when the
list is empty or its first element is the empty string, and on a registry
query failure returns none instead of propagating the failure. -/
theorem resolveLatestVersion_first_truthy (dep : DependencyCoordinate)
    (v : String) (rest : List String) (m : String) :
    resolveLatestVersion dep (Except.ok []) = Except.ok none ∧
    (v ≠ "" → resolveLatestVersion dep (Except.ok (v :: rest)) = Except.ok (some v)) ∧
    resolveLatestVersion dep (Except.ok ("" :: rest)) = Except.ok none ∧
    resolveLatestVersion dep (Except.error m) = Except.ok none := by
  refine ⟨rfl, fun hv => ?_, ?_, rfl⟩
  · simp [resolveLatestVersion, findBestVersion, hv]
  · rfl

/-- Witness for the amended C7: a two-element version list yields its
first element; a failed query yields none. -/
theorem resolveLatestVersion_first_truthy_witness :
    resolveLatestVersion ⟨"g", "a", "1.0"⟩ (Except.ok ["2.0", "1.0"]) =
      Except.ok (some "2.0") ∧
    resolveLatestVersion ⟨"g", "a", "1.0"⟩ (Except.error "down") = Except.ok none :=
  ⟨(resolveLatestVersion_first_truthy ⟨"g", "a", "1.0"⟩ "2.0" ["1.0"] "down").2.1
     (by decide),
   (resolveLatestVersion_first_truthy ⟨"g", "a", "1.0"⟩ "2.0" ["1.0"] "down").2.2.2⟩

/-- C8: in every run of the start-upgrade command in which analysis
succeeds and the user rejects the proposed plan, the handler returns with
the persisted state unchanged and an empty effect trace — in particular
`applyRecipes` is never invoked and the upgrade history is untouched. -/
theorem startUpgradeCommand_reject_frame (env : OrchestratorEnv) (st : GlobalState)
    (hok : ∃ info, analyzeProject env.files = Except.ok info)
    (hreject : env.userApproved = false) :
    startUpgradeCommand env st = (st, []) := by
  obtain ⟨info, hinfo⟩ := hok
  simp [startUpgradeCommand, hinfo, hreject]

/-- Witness for C8: a Maven workspace, a rejecting user, and an initially
empty persisted state. -/
theorem startUpgradeCommand_reject_frame_witness :
    startUpgradeCommand
      ⟨⟨true, false, false⟩, false, fun _ => Except.ok (), Except.ok (), Except.ok ()⟩
      ⟨none, [], []⟩ = (⟨none, [], []⟩, []) :=
  startUpgradeCommand_reject_frame
    ⟨⟨true, false, false⟩, false, fun _ => Except.ok (), Except.ok (), Except.ok ()⟩
    ⟨none, [], []⟩ ⟨⟨BuildSystem.maven, "detected-version", [], none⟩, rfl⟩ rfl

/-- C9: when the first dot-separated segment of the current version does
not parse as a number (`parseInt` yields NaN), every threshold comparison
is false and `determineTargetJavaVersion` returns its input unchanged;
being a total function, `generatePlan` therefore never fails on a
malformed version string. -/
theorem determineTargetJavaVersion_nan_identity (s : String)
    (h : jsParseInt (majorSegment s) = none) :
    determineTargetJavaVersion s = s := by
  unfold determineTargetJavaVersion
  rw [h]

/-- Witness for C9 at the unparsable version string abc. -/
theorem determineTargetJavaVersion_nan_identity_witness :
    determineTargetJavaVersion "abc" = "abc" :=
  determineTargetJavaVersion_nan_identity "abc" (by decide)

/-- C10: `ignoreWarning` is idempotent on the persisted ignored-warnings
list, preserves freedom from duplicates, and afterwards
`isWarningIgnored` reports the id as ignored. -/
theorem ignoreWarning_idempotent (st : GlobalState) (warningId : String) :
    ignoreWarning (ignoreWarning st warningId) warningId = ignoreWarning st warningId ∧
    ((getIgnoredWarnings st).Nodup →
      (getIgnoredWarnings (ignoreWarning st warningId)).Nodup) ∧
    isWarningIgnored (ignoreWarning st warningId) warningId = true := by
  obtain ⟨ts, hist, l⟩ := st
  by_cases hc : warningId ∈ l
  · simp [ignoreWarning, getIgnoredWarnings, isWarningIgnored, List.elem_iff, hc]
  · simp [ignoreWarning, getIgnoredWarnings, isWarningIgnored, List.elem_iff, hc,
      List.nodup_append]

/-- Witness for C10 on a one-element duplicate-free starting list. -/
theorem ignoreWarning_idempotent_witness :
    ignoreWarning (ignoreWarning ⟨none, [], ["a"]⟩ "w") "w" =
      ignoreWarning ⟨none, [], ["a"]⟩ "w" ∧
    (getIgnoredWarnings (ignoreWarning ⟨none, [], ["a"]⟩ "w")).Nodup ∧
    isWarningIgnored (ignoreWarning ⟨none, [], ["a"]⟩ "w") "w" = true :=
  ⟨(ignoreWarning_idempotent ⟨none, [], ["a"]⟩ "w").1,
   (ignoreWarning_idempotent ⟨none, [], ["a"]⟩ "w").2.1 (by decide),
   (ignoreWarning_idempotent ⟨none, [], ["a"]⟩ "w").2.2⟩

end JavaUpgrade
